import Mathlib

/-!
Verification development for the ConnectWise ticket-alert script
(`connectwise_alert.py` + `config.py`).

The script is a one-shot batch job: read a watermark from
`last_run_id.txt`, fetch tickets, partition into new vs existing,
dispatch notifications, and conditionally persist a new watermark.
We embed the pure/decidable core of that cycle below; external I/O
(HTTP outcomes, the file system) is supplied as oracle input in `Env`,
and the observable effects of one run (chat calls, email calls, file
writes, and any uncaught exception) are collected in a `Trace`.
-/

/-- Uncaught Python exceptions the script can raise at module level.
`nameError` models the `NameError` raised at line 228 when the undefined
global `SMS_RECIPIENT_EMAIL` is evaluated (`config.py` only defines
`SMS_RECIPIENT_EMAILS`); `keyError` models the lookup `ticket[id]` on a dict with
no id key (lines 157, 160, 181). -/
inductive PyError where
  | nameError
  | keyError
deriving DecidableEq, Repr

/-- Outcome oracle for one HTTP request made by `requests.post`:
the request succeeds (2xx), times out, or yields a non-success status
(`raise_for_status` raises). Both failure shapes are
`requests.exceptions.RequestException` subclasses and are caught. -/
inductive HttpOutcome where
  | success
  | timeout
  | badStatus
deriving DecidableEq, Repr

/-- Which Slack webhook URL a `send_slack_webhook` call was given:
`SLACK_WEBHOOK_URL_URGENT` or `SLACK_WEBHOOK_URL_REGULAR`. -/
inductive Channel where
  | urgent
  | regular
deriving DecidableEq, Repr

/-- A fetched ticket. The script only reads three things from the JSON
object: the id (via a plain subscript that raises `KeyError` when
absent, modelled by `none`), and the priority name and site name (via
defaulting `.get` chains whose missing case is the sentinel N/A,
modelled by `Option String`). Ids are modelled as integers. -/
structure Ticket where
  id : Option Int
  priority : Option String
  site : Option String
deriving DecidableEq, Repr

/-- One invocation of `send_slack_webhook`, with its arguments and its
boolean return value. -/
structure SlackCall where
  channel : Channel
  title : String
  body : String
  color : Nat
  ok : Bool
deriving DecidableEq, Repr

/-- One invocation of `send_email` (subject, body, recipient). -/
structure EmailCall where
  subject : String
  body : String
  recipient : String
deriving DecidableEq, Repr

/-- Observable effects of one run of the `__main__` block of the script:
the `send_slack_webhook` calls made, the `send_email` calls made, the
strings written to `last_run_id.txt`, and the uncaught exception that
terminated the process, if any (`none` means the script reached its
final `--- Script Finished ---` print). -/
structure Trace where
  slackCalls : List SlackCall
  emails : List EmailCall
  fileWrites : List String
  error : Option PyError
deriving DecidableEq, Repr

/-- Oracle environment for one run: the content of `last_run_id.txt`
(`none` = file missing or unreadable, i.e. `open`/`read` raises), the
ticket list returned by `get_all_matching_tickets` (which degrades to
`[]` on API failure), the two configured webhook URLs (`none` = env
var unset), the HTTP outcome each webhook post would have, and an
externally supplied watermark override value (an environment variable
this revision of the script never reads). -/
structure Env where
  fileContent : Option String
  fetched : List Ticket
  urlUrgent : Option String
  urlRegular : Option String
  urgentOutcome : HttpOutcome
  regularOutcome : HttpOutcome
  overrideId : Option Int
deriving DecidableEq, Repr

/-- ASCII whitespace stripped by Python `str.strip()`:
space, tab, newline, carriage return, vertical tab, form feed. -/
def pyIsSpace (c : Char) : Bool :=
  c == ' ' || c == '\t' || c == '\n' || c == '\r' || c == '\x0b' || c == '\x0c'

/-- Python `s.strip()` (ASCII whitespace): drop leading and trailing
whitespace characters. -/
def pyStrip (s : String) : String :=
  ⟨((s.data.dropWhile pyIsSpace).reverse.dropWhile pyIsSpace).reverse⟩

/-- One ASCII decimal digit, 0 through 9. -/
def isAsciiDigit (c : Char) : Bool :=
  '0' ≤ c && c ≤ '9'

/-- Python `s.isdigit()` restricted to ASCII: true iff `s` is nonempty
and every character is an ASCII decimal digit. (Python also accepts
some non-ASCII digit codepoints; the writes made by the script are
ASCII.) -/
def pyIsdigit (s : String) : Bool :=
  match s.data with
  | [] => false
  | cs => cs.all isAsciiDigit

/-- Value of `int(s)` for a string of ASCII decimal digits. -/
def digitsToNat (cs : List Char) : Nat :=
  cs.foldl (fun acc c => 10 * acc + (c.toNat - 48)) 0

/-- Lines 167-173: read `last_run_id.txt`, strip surrounding whitespace,
and parse: `int(content) if content.isdigit() else 0`, with any
exception (missing/unreadable file) giving `0`. -/
def readLastId (fileContent : Option String) : Int :=
  match fileContent with
  | none => 0
  | some s =>
    let c := pyStrip s
    if pyIsdigit c then (digitsToNat c.data : Int) else 0

/-- The watermark read of the script as a function of the externally supplied
override value and the local file: this revision consults only the local
file (lines 167-173 contain no override lookup), so the override
argument is ignored. -/
def readWatermark_code (_override : Option Int) (fileContent : Option String) : Int :=
  readLastId fileContent

/-- Modelled from the spec: the Watermark Store read precedence described
in spec sections 3 and 4.4, which is not implemented in
`src/connectwise_alert.py` — "check an externally-supplied override
source first; if absent or zero, fall back to a locally persisted value;
if that is also absent/corrupt, default to 0". -/
def readWatermark_spec (override : Option Int) (fileContent : Option String) : Int :=
  match override with
  | some v => if v ≠ 0 then v else readLastId fileContent
  | none => readLastId fileContent

/-- The `priority_map` dict literal of `format_ticket_message`
(lines 144-150). -/
def priority_map : List (String × String) :=
  [("Priority 1 - Critical", "P1-CRIT"),
   ("Priority 2 - High", "P2-HIGH"),
   ("Priority 3 - Medium", "P3-MED"),
   ("Priority 4 - Low", "P4-LOW"),
   ("N/A", "N/A")]

/-- Line 151, `priority_map.get(priority_name, priority_name)`: table
lookup falling back to the input itself. -/
def abbreviatePriority (priority_name : String) : String :=
  (priority_map.lookup priority_name).getD priority_name

/-- Lines 134-160, `format_ticket_message`. The priority and site are
read with defaulting `.get` chains (missing → `"N/A"`), but the id is
read with a plain subscript, which raises `KeyError` when the key is
absent — modelled by `Except.error .keyError`. -/
def format_ticket_message (ticket : Ticket) (for_slack : Bool) : Except PyError String :=
  let priority_name := ticket.priority.getD "N/A"
  let site_name := ticket.site.getD "N/A"
  let abbreviated_priority := abbreviatePriority priority_name
  match ticket.id with
  | none => .error .keyError
  | some i =>
    if for_slack then
      .ok s!"`{i}` | *{abbreviated_priority}* | {site_name}"
    else
      .ok s!"{i} | {abbreviated_priority} | {site_name}"

/-- The `timeout=5` argument of the webhook `requests.post` (line 93),
in seconds. -/
def SLACK_POST_TIMEOUT_SECONDS : Nat := 5

/-- The guard of `send_slack_webhook` (line 64): the call is skipped
when the URL is `None`, empty (falsy), or one of the two placeholder
strings. -/
def slackUrlUsable (webhook_url : Option String) : Bool :=
  match webhook_url with
  | none => false
  | some u =>
    !(u == "" || u == "SLACK_WEBHOOK_URL_REGULAR" || u == "SLACK_WEBHOOK_URL_URGENT")

/-- `send_slack_webhook` (lines 57-107) as a function of its URL and the
HTTP outcome oracle. Unusable URL → `false` without any HTTP request;
otherwise the `try` block converts timeout and non-success status
(`raise_for_status`) into `false` via the `RequestException` handler,
and returns `true` only on a success response. The function never
raises. -/
def send_slack_webhook (webhook_url : Option String) (outcome : HttpOutcome) : Bool :=
  match webhook_url with
  | none => false
  | some u =>
    if u == "" || u == "SLACK_WEBHOOK_URL_REGULAR" || u == "SLACK_WEBHOOK_URL_URGENT" then
      false
    else
      match outcome with
      | .success => true
      | .timeout => false
      | .badStatus => false

/-- The fixed recipient list `SMS_RECIPIENT_EMAILS` from `config.py`
(lines 32-34). Note the plural name: the main block instead references
the undefined singular `SMS_RECIPIENT_EMAIL`. -/
def SMS_RECIPIENT_EMAILS : List String :=
  ["12627575505@txt.att.net", "14054039513@vtext.com"]

/-- The list comprehension at line 181:
filtering `all_matching_tickets` down to those whose id exceeds
`last_id`. Evaluated left to right; the first ticket with no id key
raises
`KeyError`, aborting the whole comprehension. -/
def filterNew : List Ticket → Int → Except PyError (List Ticket)
  | [], _ => .ok []
  | t :: rest, last_id =>
    match t.id with
    | none => .error .keyError
    | some i =>
      match filterNew rest last_id with
      | .error e => .error e
      | .ok r => .ok (if i > last_id then t :: r else r)

/-- Formatting a list of tickets in one style, propagating the first
`KeyError` (the per-ticket loops at lines 197-205 and 257-259). -/
def formatAll : List Ticket → Bool → Except PyError (List String)
  | [], _ => .ok []
  | t :: rest, for_slack =>
    match format_ticket_message t for_slack with
    | .error e => .error e
    | .ok s =>
      match formatAll rest for_slack with
      | .error e => .error e
      | .ok r => .ok (s :: r)

/-- The `__main__` block (lines 163-279) as a trace-producing function.

Branch structure follows the source: read `last_id`; filter for new
tickets (any missing id raises `KeyError` there, or while formatting);
if new tickets exist, send one consolidated urgent Slack alert, then —
before `send_email` can be called — evaluating the undefined global
`SMS_RECIPIENT_EMAIL` at line 228 raises an uncaught `NameError`, so no
email is ever sent and the watermark-update block (lines 230-247) is
unreachable; if no new tickets exist, send one regular-channel Slack
status message (existing-summary or all-clear) and finish. `print`
output is not modelled. The computed but never-observable values
(`consolidated_subject`, `consolidated_body`,
`last_successfully_formatted_id`) do not reach the trace. -/
def runMain (env : Env) : Trace :=
  let last_id := readLastId env.fileContent
  match filterNew env.fetched last_id with
  | .error e => { slackCalls := [], emails := [], fileWrites := [], error := some e }
  | .ok new_tickets =>
    if new_tickets.isEmpty then
      if env.fetched.length > 0 then
        match formatAll env.fetched true with
        | .error e => { slackCalls := [], emails := [], fileWrites := [], error := some e }
        | .ok slack_status_messages =>
          let n := env.fetched.length
          let status_title := s!"⚠️ {n} Existing Ticket(s) Acknowledged"
          let status_body := String.intercalate "\n" slack_status_messages
          let ok := send_slack_webhook env.urlRegular env.regularOutcome
          { slackCalls := [⟨.regular, status_title, status_body, 16776960, ok⟩],
            emails := [], fileWrites := [], error := none }
      else
        let ok := send_slack_webhook env.urlRegular env.regularOutcome
        { slackCalls := [⟨.regular, "✅ Ticket Status Update",
                          "All Current Tickets are Scheduled", 3066993, ok⟩],
          emails := [], fileWrites := [], error := none }
    else
      match formatAll new_tickets true, formatAll new_tickets false with
      | .error e, _ => { slackCalls := [], emails := [], fileWrites := [], error := some e }
      | _, .error e => { slackCalls := [], emails := [], fileWrites := [], error := some e }
      | .ok slack_alert_messages, .ok _sms_alert_messages =>
        let n := new_tickets.length
        let slack_title := s!"🚨 {n} NEW ConnectWise Ticket Alert(s)"
        let slack_body := String.intercalate "\n" slack_alert_messages
        let ok := send_slack_webhook env.urlUrgent env.urgentOutcome
        { slackCalls := [⟨.urgent, slack_title, slack_body, 16711680, ok⟩],
          emails := [], fileWrites := [], error := some .nameError }

set_option maxHeartbeats 1600000

/-- The set the claims speak about: tickets of the snapshot whose id is
strictly above the watermark (total counterpart of the line-181
comprehension, meaningful for snapshots in which every ticket has an
id; a ticket with no id is not selected). -/
def claimNew (ts : List Ticket) (w : Int) : List Ticket :=
  ts.filter (fun t =>
    match t.id with
    | some i => decide (i > w)
    | none => false)

/-- The string a ticket with an id renders to: the `Except.ok` payload
of `format_ticket_message`. -/
def fmtLine (t : Ticket) (for_slack : Bool) : String :=
  ((format_ticket_message t for_slack).toOption).getD ""

theorem format_ok_of_id (t : Ticket) (b : Bool) (h : t.id.isSome = true) :
    format_ticket_message t b = .ok (fmtLine t b) := by
  cases ht : t.id with
  | none => rw [ht] at h; simp at h
  | some i =>
    simp only [fmtLine, format_ticket_message, ht]
    cases b <;> rfl

theorem filterNew_eq_claimNew (ts : List Ticket) (w : Int)
    (h : ts.all (fun t => t.id.isSome) = true) :
    filterNew ts w = .ok (claimNew ts w) := by
  induction ts with
  | nil => rfl
  | cons t rest ih =>
    rw [List.all_cons, Bool.and_eq_true] at h
    obtain ⟨ht, hrest⟩ := h
    obtain ⟨i, hi⟩ := Option.isSome_iff_exists.mp ht
    simp only [filterNew, claimNew, List.filter_cons, hi, ih hrest]
    by_cases hiw : i > w <;> simp [claimNew, hiw]

theorem formatAll_eq_map (ts : List Ticket) (b : Bool)
    (h : ts.all (fun t => t.id.isSome) = true) :
    formatAll ts b = .ok (ts.map (fun t => fmtLine t b)) := by
  induction ts with
  | nil => rfl
  | cons t rest ih =>
    rw [List.all_cons, Bool.and_eq_true] at h
    simp only [formatAll, format_ok_of_id t b h.1, ih h.2, List.map]

theorem filterNew_error_of_missing (ts : List Ticket)
    (h : ts.any (fun t => t.id.isNone) = true) (w : Int) :
    filterNew ts w = .error PyError.keyError := by
  induction ts with
  | nil => simp at h
  | cons t rest ih =>
    rw [List.any_cons, Bool.or_eq_true] at h
    cases ht : t.id with
    | none => simp [filterNew, ht]
    | some i =>
      have hrest : rest.any (fun u => u.id.isNone) = true := by
        rcases h with h | h
        · rw [ht] at h; simp at h
        · exact h
      simp [filterNew, ht, ih hrest]

theorem claimNew_ids_present (ts : List Ticket) (w : Int)
    (h : ts.all (fun t => t.id.isSome) = true) :
    (claimNew ts w).all (fun t => t.id.isSome) = true := by
  rw [List.all_eq_true] at h ⊢
  intro t htmem
  exact h t (List.mem_of_mem_filter htmem)

/-- Concrete run for claim C1: watermark file holds 0, one fetched
ticket with id 3, urgent webhook configured and succeeding. -/
def env1 : Env :=
  ⟨some "0", [⟨some 3, some "Priority 1 - Critical", some "Acme"⟩],
   some "https://hooks.example/urgent", none, .success, .success, none⟩

/-- Claim C1 (code bug): the chat send for the new ticket succeeds
(`ok = true`), yet `last_run_id.txt` is never written and the run dies
with an uncaught `NameError`: line 228 references the undefined global
`SMS_RECIPIENT_EMAIL`, so the update block at lines 230-247, which would
implement the advance-iff-any-success rule, is unreachable whenever new
tickets exist. The watermark is never advanced, even on success. -/
theorem claim1_watermark_update_unreachable :
    (runMain env1).slackCalls.map (fun c => c.ok) = [true]
    ∧ (runMain env1).fileWrites = []
    ∧ (runMain env1).error = some PyError.nameError := by decide

/-- Concrete run for claim C3: watermark 0 and one new ticket, so the
consolidated email branch is taken. -/
def env3 : Env :=
  ⟨some "0", [⟨some 1, some "Priority 4 - Low", some "HQ"⟩],
   none, none, .success, .success, none⟩

/-- Claim C3 (code bug): with a new ticket present, the claim expects one
email send per address of `SMS_RECIPIENT_EMAILS` (two addresses), but the
run performs zero `send_email` calls: evaluating the undefined global
`SMS_RECIPIENT_EMAIL` at line 228 raises `NameError` before `send_email`
can be invoked. -/
theorem claim3_no_email_ever_sent :
    (runMain env3).emails = []
    ∧ (runMain env3).error = some PyError.nameError
    ∧ SMS_RECIPIENT_EMAILS.length = 2 := by decide

/-- Concrete run for claim C4: missing watermark file, one fetched
ticket, no webhook configured. -/
def env4 : Env :=
  ⟨none, [⟨some 7, some "Priority 2 - High", some "Site A"⟩],
   none, none, .success, .success, none⟩

/-- Claim C4 (code bug): the controller does not always run to
completion — in any cycle with a new ticket the uncaught `NameError`
from line 228 terminates the process before the final
`--- Script Finished ---` line. -/
theorem claim4_cycle_aborts_uncaught :
    (runMain env4).error = some PyError.nameError
    ∧ (runMain env4).error ≠ none := by decide

/-- Claim C5 counterexample: `format_ticket_message` is not total — a
ticket with no id raises `KeyError` instead of rendering the N/A
sentinel. -/
theorem claim5_format_missing_id_raises :
    format_ticket_message ⟨none, some "Priority 1 - Critical", some "Acme"⟩ true
      = Except.error PyError.keyError := rfl

/-- Claim C5 (amended): for every ticket whose id field is present,
`format_ticket_message` never fails, and missing priority/site fields
render exactly as if they held the fixed "N/A" sentinel. -/
theorem claim5_format_total_when_id_present (t : Ticket) (i : Int) (b : Bool)
    (h : t.id = some i) :
    format_ticket_message t b = Except.ok (fmtLine t b)
    ∧ (t.priority = none → t.site = none →
        format_ticket_message t b
          = format_ticket_message ⟨some i, some "N/A", some "N/A"⟩ b) := by
  have hs : t.id.isSome = true := by rw [h]; rfl
  refine ⟨format_ok_of_id t b hs, ?_⟩
  intro hp hsite
  cases t with
  | mk tid pr si =>
    simp only at h hp hsite
    subst h
    subst hp
    subst hsite
    cases b <;> rfl

/-- Witness for claim C5 (amended), at the ticket with id 5 and no
priority or site. -/
theorem claim5_format_total_when_id_present_witness :
    format_ticket_message ⟨some 5, none, none⟩ true
      = Except.ok (fmtLine ⟨some 5, none, none⟩ true)
    ∧ format_ticket_message ⟨some 5, none, none⟩ true
      = format_ticket_message ⟨some 5, some "N/A", some "N/A"⟩ true :=
  ⟨(claim5_format_total_when_id_present ⟨some 5, none, none⟩ 5 true rfl).1,
   (claim5_format_total_when_id_present ⟨some 5, none, none⟩ 5 true rfl).2 rfl rfl⟩

/-- Claim C6 (confirmed): priority abbreviation is total and
deterministic — when the name is a key of `priority_map` the result is
the stored abbreviation, otherwise the input passes through verbatim
(`abbreviatePriority` is a Lean function, so it cannot raise). -/
theorem claim6_priority_abbrev_total (p a : String) :
    (priority_map.lookup p = some a → abbreviatePriority p = a)
    ∧ (priority_map.lookup p = none → abbreviatePriority p = p) := by
  constructor
  · intro h
    simp [abbreviatePriority, h]
  · intro h
    simp [abbreviatePriority, h]

/-- Witness for claim C6: a mapped name and an unmapped name. -/
theorem claim6_priority_abbrev_total_witness :
    abbreviatePriority "Priority 3 - Medium" = "P3-MED"
    ∧ abbreviatePriority "Unrecognized Priority" = "Unrecognized Priority" :=
  ⟨(claim6_priority_abbrev_total "Priority 3 - Medium" "P3-MED").1 (by decide),
   (claim6_priority_abbrev_total "Unrecognized Priority" "P3-MED").2 (by decide)⟩

/-- Claim C7 counterexample: with an override value 42 present and the
file holding "7", the spec-mandated precedence yields 42 but the code
yields 7 — the script has no override step at all. -/
theorem claim7_override_ignored_cex :
    readWatermark_code (some 42) (some "7") = 7
    ∧ readWatermark_spec (some 42) (some "7") = 42
    ∧ readWatermark_code (some 42) (some "7")
        ≠ readWatermark_spec (some 42) (some "7") := by decide

/-- Claim C7 (amended): the watermark read consults only the locally
persisted file — the override input is ignored — and a missing file or
non-digit (after stripping) content defaults to 0. -/
theorem claim7_read_uses_only_local_file (o o2 : Option Int) (f : Option String)
    (s : String) (h : pyIsdigit (pyStrip s) = false) :
    readWatermark_code o f = readWatermark_code o2 f
    ∧ readWatermark_code o none = 0
    ∧ readWatermark_code o (some s) = 0 := by
  refine ⟨rfl, rfl, ?_⟩
  simp [readWatermark_code, readLastId, h]

/-- Witness for claim C7 (amended). -/
theorem claim7_read_uses_only_local_file_witness :
    readWatermark_code (some 42) (some "99") = readWatermark_code none (some "99")
    ∧ readWatermark_code (some 42) none = 0
    ∧ readWatermark_code (some 42) (some "oops") = 0 :=
  claim7_read_uses_only_local_file (some 42) none (some "99") "oops" (by decide)

/-- Concrete run for claim C8: watermark 10, a malformed ticket with no
id followed by a well-formed ticket with id 20. -/
def env8 : Env :=
  ⟨some "10", [⟨none, none, none⟩, ⟨some 20, some "Priority 2 - High", some "Beta"⟩],
   some "https://hooks.example/u", some "https://hooks.example/r",
   .success, .success, none⟩

/-- Claim C8 counterexample: the malformed ticket is not treated as
id 0 — the line-181 comprehension raises `KeyError` on it, so the whole
cycle aborts with no notification at all (the claim would instead have
ticket 20 urgent-alerted and the malformed one confined to the existing
summary). -/
theorem claim8_missing_id_crashes_cex :
    runMain env8 = ⟨[], [], [], some PyError.keyError⟩ := by decide

/-- Claim C8 (amended): whenever any fetched ticket lacks an id, the
partitioning comprehension raises `KeyError` and the cycle aborts before
any notification or file write; no coercion to id 0 occurs. -/
theorem claim8_missing_id_aborts (env : Env)
    (h : env.fetched.any (fun t => t.id.isNone) = true) :
    runMain env = ⟨[], [], [], some PyError.keyError⟩ := by
  have hf := filterNew_error_of_missing env.fetched h (readLastId env.fileContent)
  simp [runMain, hf]

/-- Witness for claim C8 (amended). -/
theorem claim8_missing_id_aborts_witness :
    runMain ⟨none, [⟨none, none, none⟩], none, none,
             HttpOutcome.success, HttpOutcome.success, none⟩
      = ⟨[], [], [], some PyError.keyError⟩ :=
  claim8_missing_id_aborts _ (by decide)

/-- Claim C9 (confirmed): `send_slack_webhook` (a total function — it
never raises) returns `true` exactly when the destination URL is set,
non-empty and not a placeholder and the HTTP request succeeds; unset or
placeholder URL, timeout, and non-success status all give `false`, and
the request timeout bound is below 10 seconds. -/
theorem claim9_slack_send_characterization (url : Option String) (o : HttpOutcome) :
    (send_slack_webhook url o = true
      ↔ (slackUrlUsable url = true ∧ o = HttpOutcome.success))
    ∧ SLACK_POST_TIMEOUT_SECONDS < 10 := by
  refine ⟨?_, by decide⟩
  cases url with
  | none => simp [send_slack_webhook, slackUrlUsable]
  | some u =>
    by_cases hu : (u == "" || u == "SLACK_WEBHOOK_URL_REGULAR"
                    || u == "SLACK_WEBHOOK_URL_URGENT") = true
    · simp [send_slack_webhook, slackUrlUsable, hu]
    · cases o <;> simp [send_slack_webhook, slackUrlUsable, hu]

/-- Witness for claim C9: a configured URL with a success response. -/
theorem claim9_slack_send_characterization_witness :
    send_slack_webhook (some "https://hooks.example/u") HttpOutcome.success = true :=
  (claim9_slack_send_characterization (some "https://hooks.example/u")
    HttpOutcome.success).1.mpr ⟨by decide, rfl⟩

/-- Claim C10 counterexample: the file content "7\n" does not consist
solely of decimal digits, yet it is accepted and yields 7 (the script
strips surrounding whitespace before the digit test), contradicting the
claim that any non-digit content yields 0. -/
theorem claim10_nondigit_content_accepted_cex :
    pyIsdigit "7\n" = false
    ∧ readLastId (some "7\n") = 7
    ∧ readLastId (some "7\n") ≠ 0 := by decide

/-- Claim C10 (amended): the loaded watermark is always non-negative; a
missing file yields 0, and content whose whitespace-stripped form is not
all decimal digits (including negative and signed values) yields 0. -/
theorem claim10_watermark_nonneg (c : Option String) (s : String)
    (h : pyIsdigit (pyStrip s) = false) :
    0 ≤ readLastId c ∧ readLastId none = 0 ∧ readLastId (some s) = 0 := by
  refine ⟨?_, rfl, by simp [readLastId, h]⟩
  cases c with
  | none => simp [readLastId]
  | some str =>
    simp only [readLastId]
    split
    · omega
    · omega

/-- Witness for claim C10 (amended), at the signed content "-3". -/
theorem claim10_watermark_nonneg_witness :
    0 ≤ readLastId (some "-3") ∧ readLastId none = 0 ∧ readLastId (some "-3") = 0 :=
  claim10_watermark_nonneg (some "-3") "-3" (by decide)

/-- Claim C2 (confirmed): for a snapshot in which every ticket carries an
id, the tickets routed to the urgent-chat/email path are exactly those
with id above the watermark — when that set is non-empty the single
urgent notification body is built from precisely its tickets (and
nothing is emailed, see C3); when it is empty no urgent notification is
made, and a non-empty snapshot appears only in the regular-channel
summary. -/
theorem claim2_new_partition_exact (env : Env)
    (h : env.fetched.all (fun t => t.id.isSome) = true) :
    (claimNew env.fetched (readLastId env.fileContent) ≠ [] →
        (runMain env).slackCalls.map (fun c => (c.channel, c.body))
          = [(Channel.urgent,
              String.intercalate "\n"
                ((claimNew env.fetched (readLastId env.fileContent)).map
                  (fun t => fmtLine t true)))]
        ∧ (runMain env).emails = [])
    ∧ (claimNew env.fetched (readLastId env.fileContent) = [] →
        ((runMain env).slackCalls.all (fun c => c.channel == Channel.regular) = true)
        ∧ (runMain env).emails = []
        ∧ (env.fetched ≠ [] →
            (runMain env).slackCalls.map (fun c => c.body)
              = [String.intercalate "\n"
                  (env.fetched.map (fun t => fmtLine t true))])) := by
  have hfn := filterNew_eq_claimNew env.fetched (readLastId env.fileContent) h
  constructor
  · intro hne
    have hnb : (claimNew env.fetched (readLastId env.fileContent)).isEmpty = false := by
      cases hc : claimNew env.fetched (readLastId env.fileContent) with
      | nil => exact absurd hc hne
      | cons a l => rfl
    have hfa := formatAll_eq_map (claimNew env.fetched (readLastId env.fileContent)) true
      (claimNew_ids_present env.fetched (readLastId env.fileContent) h)
    have hfb := formatAll_eq_map (claimNew env.fetched (readLastId env.fileContent)) false
      (claimNew_ids_present env.fetched (readLastId env.fileContent) h)
    simp [runMain, hfn, hnb, hfa, hfb]
  · intro he
    cases hfetch : env.fetched with
    | nil =>
      simp [runMain, hfetch, filterNew]
    | cons t rest =>
      have hfa := formatAll_eq_map env.fetched true h
      rw [hfetch] at hfn hfa he
      simp [runMain, hfn, he, hfa, hfetch]

/-- Concrete run for the claim C2 witness: watermark 100 and a single
fetched ticket with id 101. -/
def env2w : Env :=
  ⟨some "100", [⟨some 101, some "Priority 1 - Critical", some "Acme"⟩],
   some "https://hooks.example/u", none, .success, .success, none⟩

/-- Witness for claim C2: one new ticket above the watermark. -/
theorem claim2_new_partition_exact_witness :
    (runMain env2w).slackCalls.map (fun c => (c.channel, c.body))
      = [(Channel.urgent,
          String.intercalate "\n"
            ((claimNew env2w.fetched (readLastId env2w.fileContent)).map
              (fun t => fmtLine t true)))]
    ∧ (runMain env2w).emails = [] :=
  (claim2_new_partition_exact env2w (by decide)).1 (by decide)
